import Mathlib

/-!
Verification of the real-time sentiment dashboard's client-side logic.

The executable code of the repository is the React dashboard:

* `frontend/src/components/DistributionChart.jsx` — the percentage
  breakdown of a sentiment distribution (the spec's
  `computePercentageBreakdown`);
* `frontend/src/services/api.js` — the two REST fetch wrappers and the
  WebSocket wrapper;
* the `Dashboard` component — state (distribution, posts, trend,
  connection status, last update), the mount-time REST fetches, the
  hour-of-day trend bucketing, and the three WebSocket lifecycle
  callbacks.

Everything below is a shallow embedding of that code.  JavaScript numbers
that only ever hold non-negative integer counts are embedded as `Nat`;
the exact-rational value `100 * count / total` replaces the IEEE double;
a JS object with integer keys 0..23 is embedded as `Fin 24 → Option _`
and `Object.keys` of such an object enumerates those keys in ascending
numeric order, as the JS own-property-key order prescribes for integer
indices; a promise that may reject is `Except Unit _`; the possibly
`undefined` result of a JS property access is `Option _`.
-/

/-- Sentiment label attached to each analyzed post: one of the three values
`positive`, `negative`, `neutral`. -/
inductive Label where
  | positive
  | negative
  | neutral
  deriving DecidableEq, Repr

/-- The sentiment distribution snapshot: the three counts held in `Dashboard`
state (initially all zero) and passed to `DistributionChart` as its `data`
prop. -/
structure Distribution where
  positive : Nat
  negative : Nat
  neutral : Nat
  deriving DecidableEq, Repr

/-- The JS property access `data[k]` on a distribution object, for the three
keys `DistributionChart` enumerates. -/
def getCount (d : Distribution) : Label → Nat
  | .positive => d.positive
  | .negative => d.negative
  | .neutral => d.neutral

/-- `Object.keys(data)` for the distribution object: its three keys in
insertion order (`positive`, `negative`, `neutral`). -/
def labelKeys : List Label := [.positive, .negative, .neutral]

/-- `const total = data.positive + data.negative + data.neutral`
(DistributionChart.jsx line 10). -/
def chartTotal (d : Distribution) : Nat :=
  d.positive + d.negative + d.neutral

/-- `((num / den) * 100).toFixed(2)` under exact rational arithmetic: the
two-decimal percentage, returned in hundredths of a percent (the string
"75.00" is the number 7500 here).  `toFixed` rounds to the nearest
representable value and breaks ties upward, which on the non-negative
values occurring here is round-half-away-from-zero. -/
def toFixed2 (num den : Nat) : Nat :=
  (20000 * num + den) / (2 * den)

/-- One element of `chartData` (DistributionChart.jsx lines 16-22):
`{name, value, percentage}` with the percentage in hundredths. -/
structure Slice where
  name : Label
  value : Nat
  percentage : Nat
  deriving DecidableEq, Repr

/-- `chartData` (DistributionChart.jsx lines 16-22): the keys of the
distribution object, filtered to those with `data[k] > 0`, mapped to
slices carrying the count and its two-decimal percentage of the total. -/
def chartData (d : Distribution) : List Slice :=
  (labelKeys.filter (fun k => 0 < getCount d k)).map
    (fun k =>
      { name := k
        value := getCount d k
        percentage := toFixed2 (getCount d k) (chartTotal d) })

/-- What `DistributionChart` renders: either the early
"No sentiment data available" return, or the pie chart over `chartData`. -/
inductive ChartView where
  | noData
  | chart (slices : List Slice)
  deriving DecidableEq, Repr

/-- The `DistributionChart` component logic (DistributionChart.jsx lines
9-22); the spec calls this `computePercentageBreakdown`.  When the three
counts sum to zero it returns the explicit empty state before any division
is reached; otherwise it builds `chartData`. -/
def DistributionChart (d : Distribution) : ChartView :=
  if chartTotal d = 0 then .noData else .chart (chartData d)

/-- C6: when the three distribution counts sum to zero,
`computePercentageBreakdown` (the `DistributionChart` logic) returns the
explicit no-data empty state, and it does so exactly then — in every other
case the total is positive, so the divisions inside `chartData` are guarded
by a nonzero divisor.  In particular the all-zero distribution reports the
empty state. -/
theorem c6_zero_total_reports_no_data (d : Distribution) :
    (DistributionChart d = .noData ↔ chartTotal d = 0) ∧
    (DistributionChart ⟨0, 0, 0⟩ = .noData) ∧
    (DistributionChart d = .chart (chartData d) ↔ 0 < chartTotal d) := by
  refine ⟨?_, by decide, ?_⟩
  · unfold DistributionChart
    split <;> simp_all
  · unfold DistributionChart
    split <;> simp_all <;> omega

/-- C1 counterexample: on the distribution `{positive:3, negative:1,
neutral:0}` the chart data contains no entry at all for `neutral` — the
`filter (data[k] > 0)` in DistributionChart.jsx line 17 drops every label
whose count is zero, so the claim that a percentage is reported for each of
the three labels (including zero-count labels, with neutral = 0.00) is
false.  The output has exactly the two slices positive = 75.00 and
negative = 25.00. -/
theorem c1_counterexample_zero_label_dropped :
    chartData ⟨3, 1, 0⟩ =
      [{ name := .positive, value := 3, percentage := 7500 },
       { name := .negative, value := 1, percentage := 2500 }] ∧
    ¬ ∃ s ∈ chartData ⟨3, 1, 0⟩, s.name = Label.neutral := by
  decide

/-- Helper: each of the three labels is a member of the key list. -/
theorem mem_labelKeys (k : Label) : k ∈ labelKeys := by
  cases k <;> decide

/-- C1 amended: for every distribution with non-zero total, the chart data
contains a slice for a label exactly when that label's count is positive
(zero-count labels are omitted), and that slice carries the count and the
percentage `100 * count / total` rounded to two decimals half-away-from-zero;
on `{positive:3, negative:1, neutral:0}` this yields positive = 75.00 and
negative = 25.00 and no neutral slice. -/
theorem c1_chart_percentages (d : Distribution) (k : Label)
    (htot : chartTotal d ≠ 0) :
    ((∃ s ∈ chartData d, s.name = k) ↔ 0 < getCount d k) ∧
    (∀ s ∈ chartData d, s.name = k →
      s.value = getCount d k ∧
      s.percentage = toFixed2 (getCount d k) (chartTotal d)) := by
  constructor
  · constructor
    · rintro ⟨s, hs, hname⟩
      rcases List.mem_map.mp hs with ⟨k', hk', rfl⟩
      rcases List.mem_filter.mp hk' with ⟨-, hpos⟩
      subst hname
      simpa using hpos
    · intro hpos
      refine ⟨_, List.mem_map.mpr ⟨k, List.mem_filter.mpr ⟨mem_labelKeys k, by simpa using hpos⟩, rfl⟩, rfl⟩
  · intro s hs hname
    rcases List.mem_map.mp hs with ⟨k', hk', rfl⟩
    cases hname
    exact ⟨rfl, rfl⟩

/-- Witness for the amended C1 statement at the concrete distribution
`{positive:3, negative:1, neutral:0}` and the label `positive`. -/
theorem c1_chart_percentages_witness :
    chartTotal ⟨3, 1, 0⟩ ≠ 0 ∧
    ((∃ s ∈ chartData ⟨3, 1, 0⟩, s.name = Label.positive) ↔
      0 < getCount ⟨3, 1, 0⟩ .positive) :=
  ⟨by decide, (c1_chart_percentages ⟨3, 1, 0⟩ .positive (by decide)).1⟩

/-- The nested sentiment result attached to each post (`p.sentiment`); the
trend logic reads only its `label`. -/
structure Sentiment where
  label : Label
  deriving DecidableEq, Repr

/-- One analyzed post as the Dashboard consumes it.  `created_at_hour` is
`new Date(p.created_at).getHours()`: for a parseable timestamp this is an
integer 0..23, embedded as `Fin 24`. -/
structure Post where
  id : String
  content : String
  created_at_hour : Fin 24
  sentiment : Sentiment
  deriving DecidableEq, Repr

/-- `buckets[hour][p.sentiment.label]++` on the default-initialized bucket:
increment the count stored under the post's label. -/
def bumpLabel (c : Distribution) : Label → Distribution
  | .positive => { c with positive := c.positive + 1 }
  | .negative => { c with negative := c.negative + 1 }
  | .neutral => { c with neutral := c.neutral + 1 }

/-- One iteration of `d.posts.forEach` (Dashboard lines 23-27): read the
post's hour, default the bucket to `{positive:0,negative:0,neutral:0}` if
absent, and increment the post's label count.  The JS object with integer
keys is the function `Fin 24 → Option Distribution`. -/
def bucketStep (b : Fin 24 → Option Distribution) (p : Post) :
    Fin 24 → Option Distribution :=
  fun h =>
    if h = p.created_at_hour then
      some (bumpLabel ((b p.created_at_hour).getD ⟨0, 0, 0⟩) p.sentiment.label)
    else b h

/-- The `buckets` object after the whole `forEach` (Dashboard lines 22-27),
starting from the empty object. -/
def bucketsOf (posts : List Post) : Fin 24 → Option Distribution :=
  posts.foldl bucketStep (fun _ => none)

/-- One element of `trendData` (Dashboard lines 29-32): the bucket key
(rendered as the string `Hour h`) together with the spread of the bucket's
three counts. -/
structure TrendPoint where
  hour : Fin 24
  counts : Distribution
  deriving DecidableEq, Repr

/-- `trendData` (Dashboard lines 29-33): `Object.keys(buckets)` enumerates
the integer keys 0..23 present in the object in ascending numeric order
(the JS own-property-key order for integer indices), and each is mapped to
its bucket record.  The spec calls this computation `computeTrendBuckets`. -/
def computeTrendBuckets (posts : List Post) : List TrendPoint :=
  (List.finRange 24).filterMap
    (fun h => (bucketsOf posts h).map (fun c => TrendPoint.mk h c))

/-- How many posts of the list fall in hour `h`. -/
def hourCount (posts : List Post) (h : Fin 24) : Nat :=
  posts.countP (fun p => p.created_at_hour = h)

/-- How many posts of the list fall in hour `h` and carry label `l`. -/
def countLabelAt (posts : List Post) (h : Fin 24) (l : Label) : Nat :=
  posts.countP (fun p => p.created_at_hour = h ∧ p.sentiment.label = l)

/-- The per-label counts of the posts in hour `h` (absent labels are 0). -/
def countsAt (posts : List Post) (h : Fin 24) : Distribution :=
  ⟨countLabelAt posts h .positive,
   countLabelAt posts h .negative,
   countLabelAt posts h .neutral⟩

/-- Componentwise sum of two distributions. -/
def addD (a b : Distribution) : Distribution :=
  ⟨a.positive + b.positive, a.negative + b.negative, a.neutral + b.neutral⟩

/-- The single-post contribution: a 1 in the slot of label `l`. -/
def unitD : Label → Distribution
  | .positive => ⟨1, 0, 0⟩
  | .negative => ⟨0, 1, 0⟩
  | .neutral => ⟨0, 0, 1⟩

theorem bumpLabel_eq_addD (c : Distribution) (l : Label) :
    bumpLabel c l = addD c (unitD l) := by
  cases c
  cases l <;> simp [bumpLabel, addD, unitD]

theorem addD_assoc (a b c : Distribution) :
    addD (addD a b) c = addD a (addD b c) := by
  cases a; cases b; cases c
  simp [addD, Nat.add_assoc]

theorem addD_zero_left (c : Distribution) : addD ⟨0, 0, 0⟩ c = c := by
  cases c; simp [addD]

theorem countsAt_cons (p : Post) (ps : List Post) (h : Fin 24) :
    countsAt (p :: ps) h =
      if p.created_at_hour = h then
        addD (unitD p.sentiment.label) (countsAt ps h)
      else countsAt ps h := by
  cases hl : p.sentiment.label <;> by_cases hp : p.created_at_hour = h <;>
    simp [countsAt, countLabelAt, List.countP_cons, hp, hl, addD, unitD] <;>
    omega

theorem hourCount_cons (p : Post) (ps : List Post) (h : Fin 24) :
    hourCount (p :: ps) h =
      hourCount ps h + if p.created_at_hour = h then 1 else 0 := by
  by_cases hp : p.created_at_hour = h <;>
    simp [hourCount, List.countP_cons, hp]

theorem countsAt_eq_zero (posts : List Post) (h : Fin 24)
    (h0 : hourCount posts h = 0) : countsAt posts h = ⟨0, 0, 0⟩ := by
  induction posts with
  | nil => rfl
  | cons p ps ih =>
    rw [hourCount_cons] at h0
    rw [countsAt_cons]
    by_cases hp : p.created_at_hour = h
    · simp [hp] at h0
    · simp [hp] at h0 ⊢
      exact ih h0

/-- The `forEach` loop computes, at every hour, the per-label counts of the
posts in that hour added onto whatever the accumulator already held. -/
theorem foldl_bucketStep (posts : List Post) (b : Fin 24 → Option Distribution)
    (h : Fin 24) :
    (posts.foldl bucketStep b) h =
      if hourCount posts h = 0 then b h
      else some (addD ((b h).getD ⟨0, 0, 0⟩) (countsAt posts h)) := by
  induction posts generalizing b with
  | nil => simp [hourCount]
  | cons p ps ih =>
    rw [List.foldl_cons, ih, hourCount_cons, countsAt_cons]
    by_cases hp : p.created_at_hour = h
    · have hb : bucketStep b p h =
          some (addD ((b h).getD ⟨0, 0, 0⟩) (unitD p.sentiment.label)) := by
        subst hp
        simp [bucketStep, bumpLabel_eq_addD]
      by_cases h0 : hourCount ps h = 0
      · rw [countsAt_eq_zero ps h h0]
        simp [hb, hp, h0, addD, addD_assoc]
      · simp [hb, hp, h0, addD_assoc]
    · have hp' : ¬(h = p.created_at_hour) := fun hh => hp hh.symm
      have hb : bucketStep b p h = b h := by simp [bucketStep, hp']
      simp [hb, hp]

/-- The bucket object holds, under each hour that occurs in the list, exactly
the per-label counts of that hour's posts, and nothing under any other hour. -/
theorem bucketsOf_eq (posts : List Post) (h : Fin 24) :
    bucketsOf posts h =
      if hourCount posts h = 0 then none else some (countsAt posts h) := by
  rw [bucketsOf, foldl_bucketStep]
  split
  · rfl
  · simp [addD_zero_left]

theorem trend_keys (posts : List Post) :
    (computeTrendBuckets posts).map TrendPoint.hour =
      (List.finRange 24).filter (fun h => 0 < hourCount posts h) := by
  rw [computeTrendBuckets]
  induction List.finRange 24 with
  | nil => rfl
  | cons x t ih =>
    rw [List.filterMap_cons, List.filter_cons]
    rcases hb : bucketsOf posts x with - | c <;>
      rw [bucketsOf_eq] at hb <;> split at hb <;> simp_all <;>
      rw [if_pos (by omega)]

/-- C4: for every post list (labels drawn from the three values, timestamps
parseable, so the hour is an integer 0..23) the trend computation has
exactly one bucket per distinct hour-of-day occurring in the list — a
bucket for `h` exists iff some post falls in hour `h`, and the bucket keys
are pairwise distinct — and each bucket carries the per-label counts of
that hour's posts (absent labels 0, by definition of `countsAt`); the empty
list yields no buckets, and the two-posts-in-hour-10 plus
one-post-in-hour-14 example yields exactly the buckets
`{positive:1,negative:1,neutral:0}` at hour 10 and
`{positive:0,negative:0,neutral:1}` at hour 14. -/
theorem c4_trend_bucket_contents (posts : List Post) :
    (∀ h : Fin 24,
      (h ∈ (computeTrendBuckets posts).map TrendPoint.hour ↔
        ∃ p ∈ posts, p.created_at_hour = h)) ∧
    ((computeTrendBuckets posts).map TrendPoint.hour).Nodup ∧
    (∀ t ∈ computeTrendBuckets posts, t.counts = countsAt posts t.hour) ∧
    computeTrendBuckets [] = [] ∧
    computeTrendBuckets
      [{ id := "1", content := "a", created_at_hour := 10, sentiment := ⟨.positive⟩ },
       { id := "2", content := "b", created_at_hour := 10, sentiment := ⟨.negative⟩ },
       { id := "3", content := "c", created_at_hour := 14, sentiment := ⟨.neutral⟩ }] =
      [⟨10, ⟨1, 1, 0⟩⟩, ⟨14, ⟨0, 0, 1⟩⟩] := by
  refine ⟨?_, ?_, ?_, by decide, by decide⟩
  · intro h
    rw [trend_keys]
    simp [List.mem_filter, List.mem_finRange, hourCount, List.countP_pos_iff]
  · rw [trend_keys]
    exact (List.nodup_finRange 24).filter _
  · intro t ht
    rcases List.mem_filterMap.mp ht with ⟨h, -, hmap⟩
    rcases Option.map_eq_some'.mp hmap with ⟨c, hc, rfl⟩
    rw [bucketsOf_eq] at hc
    split at hc
    · exact absurd hc (by simp)
    · simp only [Option.some.injEq] at hc
      rw [← hc]

/-- Sums over a list of naturals distribute over pointwise addition. -/
theorem sum_map_add (l : List (Fin 24)) (f g : Fin 24 → Nat) :
    (l.map (fun h => f h + g h)).sum = (l.map f).sum + (l.map g).sum := by
  induction l with
  | nil => rfl
  | cons x t ih => simp [ih]; omega

/-- Summing the indicator of `a` over a list counts the occurrences of `a`. -/
theorem sum_map_ite_count (a : Fin 24) (l : List (Fin 24)) :
    (l.map (fun h => if a = h then 1 else 0)).sum = l.count a := by
  induction l with
  | nil => rfl
  | cons x t ih =>
    by_cases hx : a = x
    · subst hx
      simp [List.count_cons, ih, Nat.add_comm]
    · simp [List.count_cons, hx, ih]

/-- Every post falls in exactly one hour, so the hour counts over 0..23 sum
to the length of the post list. -/
theorem sum_hourCount (posts : List Post) :
    ((List.finRange 24).map (fun h => hourCount posts h)).sum = posts.length := by
  induction posts with
  | nil => simp [hourCount]
  | cons p ps ih =>
    have hrw : (fun h => hourCount (p :: ps) h)
        = fun h => hourCount ps h + if p.created_at_hour = h then 1 else 0 :=
      funext fun h => hourCount_cons p ps h
    rw [hrw, sum_map_add, ih, sum_map_ite_count,
      List.count_eq_one_of_mem (List.nodup_finRange 24) (List.mem_finRange _)]
    simp

/-- Summing a weight over a filterMap is summing the weight of the hits. -/
theorem sum_filterMap_getD {α β : Type} (l : List α) (f : α → Option β)
    (w : β → Nat) :
    ((l.filterMap f).map w).sum = (l.map (fun x => ((f x).map w).getD 0)).sum := by
  induction l with
  | nil => rfl
  | cons x t ih => cases hx : f x <;> simp [List.filterMap_cons, hx, ih]

/-- The three label counts of one hour sum to that hour's post count. -/
theorem sum_countsAt (posts : List Post) (h : Fin 24) :
    (countsAt posts h).positive + (countsAt posts h).negative +
      (countsAt posts h).neutral = hourCount posts h := by
  induction posts with
  | nil => rfl
  | cons p ps ih =>
    rw [countsAt_cons, hourCount_cons]
    by_cases hp : p.created_at_hour = h
    · cases hl : p.sentiment.label <;> simp [hp, hl, addD, unitD] <;> omega
    · simp [hp, ih]

/-- C5: for every post list, the sum over all trend buckets of the three
per-bucket label counts equals the length of the input post list. -/
theorem c5_bucket_counts_sum_to_length (posts : List Post) :
    ((computeTrendBuckets posts).map
      (fun t => t.counts.positive + t.counts.negative + t.counts.neutral)).sum
      = posts.length := by
  rw [computeTrendBuckets, sum_filterMap_getD]
  have hrw : (fun h : Fin 24 =>
      (((bucketsOf posts h).map (fun c => TrendPoint.mk h c)).map
        (fun t => t.counts.positive + t.counts.negative + t.counts.neutral)).getD 0)
      = fun h => hourCount posts h := by
    funext h
    rw [bucketsOf_eq]
    by_cases h0 : hourCount posts h = 0
    · simp [h0]
    · simp only [h0, if_neg h0, Option.map_some', Option.getD_some]
      exact sum_countsAt posts h
  rw [hrw, sum_hourCount]

/-- The bucket list built over an ascending key list has strictly ascending
bucket keys. -/
theorem pairwise_filterMap_buckets (posts : List Post) (l : List (Fin 24))
    (hl : l.Pairwise (· < ·)) :
    (l.filterMap
      (fun h => (bucketsOf posts h).map (fun c => TrendPoint.mk h c))).Pairwise
      (fun a b => a.hour < b.hour) := by
  induction l with
  | nil => simp
  | cons x t ih =>
    rcases List.pairwise_cons.mp hl with ⟨hx, ht⟩
    rw [List.filterMap_cons]
    cases hb : (bucketsOf posts x).map (fun c => TrendPoint.mk x c) with
    | none => exact ih ht
    | some tp =>
      refine List.pairwise_cons.mpr ⟨?_, ih ht⟩
      intro y hy
      rcases List.mem_filterMap.mp hy with ⟨h, hmem, hmap⟩
      rcases Option.map_eq_some'.mp hmap with ⟨c, -, rfl⟩
      rcases Option.map_eq_some'.mp hb with ⟨c', -, rfl⟩
      exact hx h hmem

/-- C10: for every input post list, the produced trend bucket sequence is
ordered by strictly ascending hour-of-day key — `Object.keys` enumerates
the integer bucket keys in ascending numeric order — so the rendered bucket
order is a deterministic function of the input. -/
theorem c10_buckets_ascending (posts : List Post) :
    (computeTrendBuckets posts).Pairwise (fun a b => a.hour < b.hour) :=
  pairwise_filterMap_buckets posts _ (List.pairwise_lt_finRange 24)

/-- The connection status label (Dashboard line 12): `connecting` initially,
`connected` and `disconnected` set by the channel callbacks. -/
inductive Status where
  | connecting
  | connected
  | disconnected
  deriving DecidableEq, Repr

/-- A parsed channel event envelope `{type, data}`; the Dashboard's message
callback inspects nothing in it. -/
structure ChannelMsg where
  type : String
  deriving DecidableEq, Repr

/-- The raw `e.data` string of a channel message, abstracted by whether
`JSON.parse` succeeds on it: `valid m` parses to the envelope `m`, and
`invalid` stands for any string that is not valid JSON. -/
inductive RawData where
  | valid (m : ChannelMsg)
  | invalid
  deriving DecidableEq, Repr

/-- `JSON.parse(e.data)` (api.js line 18): the parsed envelope, or a thrown
SyntaxError (the error value). -/
def jsonParse : RawData → Except Unit ChannelMsg
  | .valid m => .ok m
  | .invalid => .error ()

/-- The JSON body of a distribution response as the Dashboard reads it:
`d.distribution` is an `Option` because accessing a missing field of the
parsed body yields `undefined`. -/
structure DistJson where
  distribution : Option Distribution
  deriving DecidableEq, Repr

/-- The network outcome of `GET /api/sentiment/distribution`: a network
error (the fetch promise rejects), or an HTTP response with some status
code and a body that either is (`some`) or is not (`none`) valid JSON. -/
inductive WireResponse where
  | netError
  | response (status : Nat) (body : Option DistJson)
  deriving DecidableEq, Repr

/-- `fetchDistribution` (api.js lines 3-6): `fetch` rejects only on network
error — a response with an HTTP error status still resolves — and
`res.json()` rejects when the body is not valid JSON.  The status code is
never consulted: there is no `res.ok` check. -/
def fetchDistribution : WireResponse → Except Unit DistJson
  | .netError => .error ()
  | .response _ none => .error ()
  | .response _ (some j) => .ok j

/-- The JSON body of a posts response as the Dashboard consumes it: the
`posts` array.  (The response's total count is never read.) -/
structure PostsJson where
  posts : List Post
  deriving DecidableEq, Repr

/-- The network outcome of `GET /api/posts`, as for the distribution. -/
inductive PostsWire where
  | netError
  | response (status : Nat) (body : Option PostsJson)
  deriving DecidableEq, Repr

/-- `fetchPosts` (api.js lines 8-13): same resolution behavior as
`fetchDistribution`, status code never consulted. -/
def fetchPosts : PostsWire → Except Unit PostsJson
  | .netError => .error ()
  | .response _ none => .error ()
  | .response _ (some j) => .ok j

/-- The five pieces of Dashboard state (lines 9-13).  `distribution` is an
`Option` because `setDistribution(d.distribution)` can store the undefined
value of a missing body field over the initial object. -/
structure DashState where
  distribution : Option Distribution
  posts : List Post
  trend : List TrendPoint
  status : Status
  lastUpdate : String
  deriving DecidableEq, Repr

/-- The initial Dashboard state (lines 9-13). -/
def initState : DashState :=
  { distribution := some ⟨0, 0, 0⟩
    posts := []
    trend := []
    status := .connecting
    lastUpdate := "--" }

/-- The channel message callback (Dashboard lines 38-41): set the status to
`connected` and record the wall-clock time `now` as the last update. -/
def onChannelMessage (_ : ChannelMsg) (now : String) (s : DashState) :
    DashState :=
  { s with status := .connected, lastUpdate := now }

/-- `ws.onmessage` (api.js line 18): parse `e.data` and hand the result to
the registered callback.  A parse failure is a thrown error escaping the
handler; the callback never runs. -/
def wsOnMessage (raw : RawData) (now : String) (s : DashState) :
    Except Unit DashState :=
  match jsonParse raw with
  | .error e => .error e
  | .ok m => .ok (onChannelMessage m now s)

/-- The channel error callback (Dashboard line 42). -/
def onChannelError (s : DashState) : DashState :=
  { s with status := .disconnected }

/-- The channel close callback (Dashboard line 43). -/
def onChannelClose (s : DashState) : DashState :=
  { s with status := .disconnected }

/-- The `.then` callback of the distribution fetch (Dashboard line 17):
store `d.distribution` wholesale. -/
def onDistFetch (j : DistJson) (s : DashState) : DashState :=
  { s with distribution := j.distribution }

/-- The `.then` callback of the posts fetch (Dashboard lines 18-34): store
the post list and recompute the trend buckets from it. -/
def onPostsFetch (j : PostsJson) (s : DashState) : DashState :=
  { s with posts := j.posts, trend := computeTrendBuckets j.posts }

/-- One asynchronous completion delivered to the mounted Dashboard: one of
the two REST fetches settling, or one of the three channel lifecycle
events. -/
inductive Event where
  | distFetch (r : WireResponse)
  | postsFetch (r : PostsWire)
  | wsMessage (raw : RawData) (now : String)
  | wsError
  | wsClose
  deriving DecidableEq, Repr

/-- How one event transforms the Dashboard state.  A rejected fetch promise
has no rejection handler, so its `.then` callback never runs and the state
is untouched; an error thrown inside the message handler aborts it before
any state write. -/
def step (s : DashState) : Event → DashState
  | .distFetch r =>
    match fetchDistribution r with
    | .error _ => s
    | .ok j => onDistFetch j s
  | .postsFetch r =>
    match fetchPosts r with
    | .error _ => s
    | .ok j => onPostsFetch j s
  | .wsMessage raw now =>
    match wsOnMessage raw now s with
    | .error _ => s
    | .ok s2 => s2
  | .wsError => onChannelError s
  | .wsClose => onChannelClose s

/-- The state reached from `s` after a sequence of event completions. -/
def run (s : DashState) (es : List Event) : DashState :=
  es.foldl step s

/-- The three WebSocket callbacks registered in `connectWebSocket`
(api.js lines 18-20). -/
def isChannelEvent : Event → Bool
  | .wsMessage _ _ => true
  | .wsError => true
  | .wsClose => true
  | _ => false

/-- Any event that is not one of the three channel callbacks leaves the
connection status unchanged. -/
theorem step_status_of_not_channel (s : DashState) (e : Event)
    (h : isChannelEvent e = false) : (step s e).status = s.status := by
  cases e with
  | distFetch r =>
    cases r with
    | netError => rfl
    | response st b => cases b <;> rfl
  | postsFetch r =>
    cases r with
    | netError => rfl
    | response st b => cases b <;> rfl
  | wsMessage raw now => simp [isChannelEvent] at h
  | wsError => simp [isChannelEvent] at h
  | wsClose => simp [isChannelEvent] at h

/-- C9: the connection status is written only by the three channel-lifecycle
callbacks: every event other than those three — in particular either REST
fetch completion path, resolve or reject — leaves the status exactly as it
was, so in every reachable state the status has only ever been written by
channel callbacks. -/
theorem c9_status_written_only_by_channel (s : DashState) (e : Event)
    (h : isChannelEvent e = false) : (step s e).status = s.status :=
  step_status_of_not_channel s e h

/-- Witness for C9 at the concrete non-channel event of a failed
distribution fetch delivered to the initial state. -/
theorem c9_status_written_only_by_channel_witness :
    isChannelEvent (Event.distFetch .netError) = false ∧
    (step initState (Event.distFetch .netError)).status = initState.status :=
  ⟨rfl, c9_status_written_only_by_channel initState (Event.distFetch .netError) rfl⟩

/-- C8: every inbound channel message leaves the stored distribution, post
list and trend buckets exactly as they were; a message whose data parses
additionally sets only the status (to `connected`) and the last-update
time, and a message whose data does not parse changes nothing at all. -/
theorem c8_message_frame (raw : RawData) (now : String) (s : DashState) :
    (step s (.wsMessage raw now)).distribution = s.distribution ∧
    (step s (.wsMessage raw now)).posts = s.posts ∧
    (step s (.wsMessage raw now)).trend = s.trend ∧
    (∀ m, step s (.wsMessage (.valid m) now) =
      { s with status := .connected, lastUpdate := now }) ∧
    step s (.wsMessage .invalid now) = s := by
  cases raw <;> simp [step, wsOnMessage, jsonParse, onChannelMessage]

/-- C3 counterexample: an HTTP 500 response whose JSON body has no
`distribution` field is a failed fetch with a non-success status, yet the
stored distribution does not stay as it was: the code never checks
`res.ok`, so the `.then` callback runs and stores the missing field
(undefined) over the initial zero distribution. -/
theorem c3_counterexample_error_status_overwrites :
    (step initState
      (.distFetch (.response 500 (some ⟨none⟩)))).distribution = none ∧
    initState.distribution = some ⟨0, 0, 0⟩ := by
  decide

/-- C3 amended: a REST fetch whose promise rejects — a network error, or a
response body that is not valid JSON — leaves the whole state exactly as it
was (initial zeros if nothing succeeded earlier); a non-success HTTP status
with a JSON body, however, resolves and is processed like a success. -/
theorem c3_rejected_fetch_preserves_state (s : DashState)
    (r : WireResponse) (r2 : PostsWire)
    (h1 : fetchDistribution r = .error ()) (h2 : fetchPosts r2 = .error ()) :
    step s (.distFetch r) = s ∧ step s (.postsFetch r2) = s := by
  constructor
  · simp [step, h1]
  · simp [step, h2]

/-- Witness for the amended C3 at two concrete network errors delivered to
the initial state. -/
theorem c3_rejected_fetch_preserves_state_witness :
    fetchDistribution .netError = .error () ∧
    fetchPosts .netError = .error () ∧
    (step initState (.distFetch .netError) = initState ∧
     step initState (.postsFetch .netError) = initState) :=
  ⟨rfl, rfl, c3_rejected_fetch_preserves_state initState .netError .netError rfl rfl⟩

/-- C7 counterexample: on a message whose data is not valid JSON the
handler does not fail closed: `JSON.parse` throws and the error escapes the
`onmessage` handler (the result is the thrown error, not the unchanged-state
no-op the claim describes). -/
theorem c7_counterexample_invalid_json_throws :
    wsOnMessage RawData.invalid "12:00:00" initState = .error () ∧
    ¬ wsOnMessage RawData.invalid "12:00:00" initState = .ok initState := by
  constructor
  · rfl
  · intro h
    simp [wsOnMessage, jsonParse] at h

/-- C7 amended: on a message whose data is not valid JSON, `JSON.parse`
throws and the error propagates out of the message handler; the registered
callback never runs, so no state change occurs — but the handler raises
rather than failing closed. -/
theorem c7_invalid_json_escapes_handler (now : String) (s : DashState) :
    wsOnMessage RawData.invalid now s = .error () ∧
    step s (.wsMessage RawData.invalid now) = s := by
  constructor <;> rfl

/-- C2 counterexample: the message callback sets the status to `connected`
unconditionally, so after a channel error has set `disconnected`, one more
channel message moves the status back to `connected` — the status does not
stay `disconnected` under every later event. -/
theorem c2_counterexample_message_revives_status :
    (run initState [Event.wsError]).status = .disconnected ∧
    (run initState
      [Event.wsError,
       Event.wsMessage (.valid ⟨"sentiment_update"⟩) "12:00:00"]).status
      = .connected := by
  constructor <;> rfl

/-- Events that set the status to `disconnected`: channel error or close. -/
def isChannelDown : Event → Bool
  | .wsError => true
  | .wsClose => true
  | _ => false

/-- Inbound channel message events. -/
def isMessage : Event → Bool
  | .wsMessage _ _ => true
  | _ => false

/-- The browser channel's delivery guarantee: after an error or close event,
no further message event is delivered. -/
def noMsgAfterDown : List Event → Bool
  | [] => true
  | e :: es =>
    ((!isChannelDown e) || es.all (fun x => !isMessage x)) && noMsgAfterDown es

/-- In a trace respecting the delivery guarantee, everything after a down
event is message-free. -/
theorem noMsgAfterDown_split (a : List Event) (d : Event) (b : List Event)
    (hn : noMsgAfterDown (a ++ d :: b) = true) (hd : isChannelDown d = true) :
    b.all (fun x => !isMessage x) = true := by
  induction a with
  | nil =>
    simp only [List.nil_append, noMsgAfterDown, hd, Bool.not_true,
      Bool.false_or, Bool.and_eq_true] at hn
    exact hn.1
  | cons e a' ih =>
    simp only [List.cons_append, noMsgAfterDown, Bool.and_eq_true] at hn
    exact ih hn.2

/-- Once the status is `disconnected`, a message-free suffix of events keeps
it `disconnected`. -/
theorem status_stays_disconnected (q : List Event) (s : DashState)
    (hs : s.status = .disconnected)
    (hq : q.all (fun x => !isMessage x) = true) :
    (run s q).status = .disconnected := by
  induction q generalizing s with
  | nil => simpa [run] using hs
  | cons e q' ih =>
    simp only [List.all_cons, Bool.and_eq_true] at hq
    have h1 : (step s e).status = .disconnected := by
      cases e with
      | wsMessage raw now => simp [isMessage] at hq
      | wsError => rfl
      | wsClose => rfl
      | distFetch r =>
        rw [step_status_of_not_channel s (.distFetch r) rfl]
        exact hs
      | postsFetch r =>
        rw [step_status_of_not_channel s (.postsFetch r) rfl]
        exact hs
    have : run s (e :: q') = run (step s e) q' := rfl
    rw [this]
    exact ih (step s e) h1 hq.2

/-- A run that ends `disconnected` either started there or contains a down
event. -/
theorem down_event_of_disconnected (p : List Event) (s : DashState)
    (h : (run s p).status = .disconnected) :
    s.status = .disconnected ∨
      ∃ a d b, p = a ++ d :: b ∧ isChannelDown d = true := by
  induction p generalizing s with
  | nil => exact Or.inl h
  | cons e p' ih =>
    have h' : (run (step s e) p').status = .disconnected := h
    rcases ih (step s e) h' with hst | ⟨a, d, b, hab, hd⟩
    · cases e with
      | wsError => exact Or.inr ⟨[], .wsError, p', rfl, rfl⟩
      | wsClose => exact Or.inr ⟨[], .wsClose, p', rfl, rfl⟩
      | wsMessage raw now =>
        cases raw with
        | valid m =>
          simp [step, wsOnMessage, jsonParse, onChannelMessage] at hst
        | invalid => exact Or.inl hst
      | distFetch r =>
        rw [step_status_of_not_channel s (.distFetch r) rfl] at hst
        exact Or.inl hst
      | postsFetch r =>
        rw [step_status_of_not_channel s (.postsFetch r) rfl] at hst
        exact Or.inl hst
    · exact Or.inr ⟨e :: a, d, b, by rw [hab, List.cons_append], hd⟩

/-- C2 amended: the status starts at `connecting`; a channel message (with
parseable data) sets it to `connected` and a channel error or close sets it
to `disconnected`; and on every event trace respecting the channel's
guarantee that no message event is delivered after an error or close, once
the status is `disconnected` it stays `disconnected` for the rest of the
trace.  (Without that delivery guarantee the property fails: the message
callback would set `connected` again, as the counterexample shows.) -/
theorem c2_status_forward_only (p q : List Event)
    (hn : noMsgAfterDown (p ++ q) = true)
    (hd : (run initState p).status = .disconnected) :
    initState.status = .connecting ∧
    (∀ s m now, (step s (.wsMessage (.valid m) now)).status = .connected) ∧
    (∀ s, (step s Event.wsError).status = .disconnected ∧
          (step s Event.wsClose).status = .disconnected) ∧
    (run initState (p ++ q)).status = .disconnected := by
  refine ⟨rfl, fun s m now => rfl, fun s => ⟨rfl, rfl⟩, ?_⟩
  rcases down_event_of_disconnected p initState hd with hst | ⟨a, d, b, hab, hdd⟩
  · exact absurd hst (by decide)
  · subst hab
    have hsplit : (a ++ d :: b) ++ q = a ++ d :: (b ++ q) := by simp
    rw [hsplit] at hn
    have hall : (b ++ q).all (fun x => !isMessage x) = true :=
      noMsgAfterDown_split a d (b ++ q) hn hdd
    have hq : q.all (fun x => !isMessage x) = true := by
      rw [List.all_append, Bool.and_eq_true] at hall
      exact hall.2
    have hrun : run initState ((a ++ d :: b) ++ q)
        = run (run initState (a ++ d :: b)) q := by
      simp [run, List.foldl_append]
    rw [hrun]
    exact status_stays_disconnected q _ hd hq

/-- Witness for the amended C2 at the concrete trace consisting of a channel
close followed by a failed distribution fetch. -/
theorem c2_status_forward_only_witness :
    noMsgAfterDown ([Event.wsClose] ++ [Event.distFetch .netError]) = true ∧
    (run initState [Event.wsClose]).status = .disconnected ∧
    (run initState
      ([Event.wsClose] ++ [Event.distFetch .netError])).status = .disconnected :=
  ⟨by decide, by decide,
    (c2_status_forward_only [Event.wsClose] [Event.distFetch .netError]
      (by decide) (by decide)).2.2.2⟩
